import Mathlib

/-!
Verification of the AI Request Gateway of the vocabulary-learning app
(src/index.tsx): error classification (`parseGeminiError`), the quota
cooldown controller (`setGeminiQuotaExhaustedCooldown` and its timer
callback), and the two retry wrappers (`generateWordDetailsWithGemini`,
`generateImageForWordWithGemini`).

The embedding is a shallow one.  The single-threaded JS execution of one
call is modelled as a pure function from a script of attempt outcomes
(what the external service does on each attempt) and an initial global
state to a result, a final global state, and an ordered trace of
observable events (toast notifications by level, loading-flag toggles,
sleeps with their delay, and invocations of the external operation).
Toast message texts are UI copy and are elided; only the level and the
position in the trace are retained, which is what the properties speak
about.  `window.setTimeout` / `clearTimeout` are modelled by a pending
timer list (id, fire time) inside the global state together with an
explicit model time `now`; the only timers the gateway creates are quota
cooldown timers, so firing a timer runs the cooldown callback body.
-/

namespace Gateway

/-- Toast notification levels, as in `ToastMessage['type']`. -/
inductive ToastType where
  | success
  | error
  | warning
  | info
  deriving Repr, DecidableEq

/-- Observable events of one gateway call, in program order. -/
inductive Event where
  | toast (level : ToastType)
  | setLoading (b : Bool)
  | sleep (ms : Nat)
  | invokeOperation
  deriving Repr, DecidableEq

/-- Character-wise lower-casing, JS `toLowerCase` for the ASCII range the
classification keywords live in. -/
def lowerStr (s : String) : String := String.mk (s.data.map Char.toLower)

/-- Character-wise upper-casing, JS `toUpperCase` for the ASCII range. -/
def upperStr (s : String) : String := String.mk (s.data.map Char.toUpper)

/-- Whether `pat` occurs at the start of `l`. -/
def startsWithChars : List Char → List Char → Bool
  | [], _ => true
  | _ :: _, [] => false
  | p :: ps, c :: cs => p == c && startsWithChars ps cs

/-- Whether `pat` occurs somewhere in `hay`. -/
def hasSubChars (hay pat : List Char) : Bool :=
  match hay with
  | [] => pat.isEmpty
  | _ :: rest => startsWithChars pat hay || hasSubChars rest pat

/-- JS `haystack.includes(needle)` for strings. -/
def strContains (haystack needle : String) : Bool :=
  hasSubChars haystack.data needle.data

/-- The nested `error.error` object of the standard Gemini error shape.
`message` is `some` exactly when `typeof error.error.message === 'string'`. -/
structure NestedErr where
  message : Option String
  code : Option Int
  status : Option String
  deriving Repr, DecidableEq

/-- A JS value thrown by the service, as far as `parseGeminiError` looks at it:
an optional nested `error` object, an optional top-level string `message`,
an optional top-level `status` that may be a number or a string, and the
result of `String(error)`. -/
structure GeminiErrorVal where
  nestedError : Option NestedErr
  message : Option String
  status : Option (Int ⊕ String)
  asString : String
  deriving Repr, DecidableEq

/-- Result record of `parseGeminiError`. -/
structure ParsedGeminiError where
  detailedErrorMessage : String
  statusCode : Option Int
  geminiErrorStatus : Option String
  isQuotaExhaustedError : Bool
  isRateLimitErrorForRetry : Bool
  displayErrorMsg : String
  deriving Repr, DecidableEq

/-- JS truthiness of the extracted `statusCode` for the `!statusCode` test:
`undefined` and `0` are falsy. -/
def jsFalsyCode : Option Int → Bool
  | none => true
  | some n => n == 0

/-- Shallow embedding of `parseGeminiError` (src/index.tsx:316-353).

Field extraction: the nested branch applies when `error.error.message` is a
string; otherwise the flat branch applies when `error.message` is a string,
and there `statusCode` is taken from `error.status` only when that is a
truthy number (a string or `0` there is ignored); otherwise both fall back
to `String(error)`.  The nested branch upper-cases the status string, and
both message searches are on the lower-cased message. -/
def parseGeminiError (e : GeminiErrorVal) : ParsedGeminiError :=
  let fields : String × String × Option Int × Option String :=
    match e.nestedError with
    | some ne =>
      match ne.message with
      | some m => (lowerStr m, m, ne.code, ne.status.map upperStr)
      | none =>
        match e.message with
        | some m =>
          (lowerStr m, m,
            match e.status with
            | some (Sum.inl n) => if n == 0 then none else some n
            | _ => none,
            none)
        | none => (lowerStr e.asString, e.asString, none, none)
    | none =>
      match e.message with
      | some m =>
        (lowerStr m, m,
          match e.status with
          | some (Sum.inl n) => if n == 0 then none else some n
          | _ => none,
          none)
      | none => (lowerStr e.asString, e.asString, none, none)
  let detailedErrorMessage := fields.1
  let displayErrorMsg := fields.2.1
  let statusCode := fields.2.2.1
  let geminiErrorStatus := fields.2.2.2
  let isQuotaExhaustedError :=
    (statusCode == some 429 &&
      (strContains detailedErrorMessage "quota" ||
        geminiErrorStatus == some "RESOURCE_EXHAUSTED")) ||
    (jsFalsyCode statusCode && strContains detailedErrorMessage "quota" &&
      (strContains detailedErrorMessage "exceeded" ||
        strContains detailedErrorMessage "exhausted")) ||
    (geminiErrorStatus == some "RESOURCE_EXHAUSTED")
  let isRateLimitErrorForRetry := statusCode == some 429 && !isQuotaExhaustedError
  { detailedErrorMessage := detailedErrorMessage
    statusCode := statusCode
    geminiErrorStatus := geminiErrorStatus
    isQuotaExhaustedError := isQuotaExhaustedError
    isRateLimitErrorForRetry := isRateLimitErrorForRetry
    displayErrorMsg := displayErrorMsg }

/-- `GEMINI_QUOTA_COOLDOWN_MS = 15 * 60 * 1000` (src/index.tsx:282). -/
def GEMINI_QUOTA_COOLDOWN_MS : Nat := 15 * 60 * 1000

/-- Global gateway state: the AI client handle (`ai !== null`), the
module-level quota flag and timer id, plus the timer-system model
(current model time, pending timers as (id, fire time) pairs, and the
next fresh timer id; real `window.setTimeout` ids are positive so fresh
ids start at 1 and the truthy test `if (quotaCooldownTimeoutId)` is
`Option.isSome` here). -/
structure GState where
  ai : Bool
  isCurrentlyGeminiQuotaExhausted : Bool
  quotaCooldownTimeoutId : Option Nat
  now : Nat
  nextTimerId : Nat
  pendingTimers : List (Nat × Nat)
  deriving Repr, DecidableEq

/-- Shallow embedding of `setGeminiQuotaExhaustedCooldown`
(src/index.tsx:285-313): a no-op when the flag is already set, otherwise
set the flag, emit one error toast, clear any previous timer and schedule
a fresh cooldown timer `GEMINI_QUOTA_COOLDOWN_MS` from now.  Returns the
new state and the toast events emitted synchronously. -/
def setGeminiQuotaExhaustedCooldown (st : GState) : GState × List Event :=
  if st.isCurrentlyGeminiQuotaExhausted then (st, [])
  else
    let cleared :=
      match st.quotaCooldownTimeoutId with
      | some tid => st.pendingTimers.filter (fun p => p.1 != tid)
      | none => st.pendingTimers
    ({ st with
        isCurrentlyGeminiQuotaExhausted := true
        quotaCooldownTimeoutId := some st.nextTimerId
        nextTimerId := st.nextTimerId + 1
        pendingTimers := (st.nextTimerId, st.now + GEMINI_QUOTA_COOLDOWN_MS) :: cleared },
      [Event.toast ToastType.error])

/-- Body of the `setTimeout` callback scheduled by
`setGeminiQuotaExhaustedCooldown` (src/index.tsx:306-311): clear the
flag, null the timer id, emit one info toast. -/
def quotaCooldownCallback (st : GState) : GState × List Event :=
  ({ st with
      isCurrentlyGeminiQuotaExhausted := false
      quotaCooldownTimeoutId := none },
    [Event.toast ToastType.info])

/-- Timer-system step: fire the pending timer `tid`.  If it is not
pending, nothing happens; otherwise model time advances to its fire time,
it is removed from the pending set, and its callback body runs.  The only
timers the gateway schedules are quota cooldown timers. -/
def fireTimer (tid : Nat) (st : GState) : GState × List Event :=
  match st.pendingTimers.find? (fun p => p.1 == tid) with
  | none => (st, [])
  | some pt =>
    quotaCooldownCallback
      { st with
          now := pt.2
          pendingTimers := st.pendingTimers.filter (fun p => p.1 != tid) }

/-- The parsed word payload (`Partial<Word>` after `JSON.parse`); each field
is `some` when the JSON object carries a string there. -/
structure WordPayload where
  term : Option String
  pronunciation : Option String
  partOfSpeech : Option String
  meaning : Option String
  exampleSentence : Option String
  exampleSentenceMeaning : Option String
  deriving Repr, DecidableEq

/-- JS falsiness of an optional string field (`!data.field`): absent or
empty. -/
def jsFalsyStr : Option String → Bool
  | none => true
  | some s => s.isEmpty

/-- The essential-field check of src/index.tsx:408:
`!data.partOfSpeech || !data.meaning || !data.exampleSentence`. -/
def wordPayloadIncomplete (d : WordPayload) : Bool :=
  jsFalsyStr d.partOfSpeech || jsFalsyStr d.meaning || jsFalsyStr d.exampleSentence

/-- The degraded `{ term }` payload returned when every attempt came back
incomplete (src/index.tsx:417). -/
def degradedWordPayload (term : String) : WordPayload :=
  { term := some term
    pronunciation := none
    partOfSpeech := none
    meaning := none
    exampleSentence := none
    exampleSentenceMeaning := none }

/-- One attempt of the word-details operation: the awaited
`ai.models.generateContent` call together with the fence stripping and
`JSON.parse` of the try body — anything thrown anywhere in that body lands
in the same `catch`, so an attempt either throws a `GeminiErrorVal` or
yields a parsed `WordPayload`. -/
abbrev WordAttempt := Except GeminiErrorVal WordPayload

/-- Result of one gateway call: the returned value (`none` is the `null`
sentinel), the final global state, and the event trace in order. -/
structure CallResult (α : Type) where
  ret : Option α
  state : GState
  events : List Event
  deriving Repr, DecidableEq

/-- The `for (let i = 0; i <= retries; i++)` body of
`generateWordDetailsWithGemini` (src/index.tsx:387-450).  `attempts i` is
what the service does on attempt `i`.  Every iteration either returns or
continues to `i + 1` after doubling `currentDelay`, so the loop never
falls through to the code after it.  The loop's `i < retries` test is
represented by the remaining-retries counter `fuel = retries - i` being
positive; `i` is retained as the attempt index fed to the script. -/
def wordDetailsLoop (attempts : Nat → WordAttempt) (term : String) :
    Nat → Nat → Nat → GState → CallResult WordPayload
  | fuel, i, currentDelay, st =>
    match attempts i with
    | Except.ok data =>
      if wordPayloadIncomplete data then
        match fuel with
        | fuelLess + 1 =>
          let rest := wordDetailsLoop attempts term fuelLess (i + 1) (currentDelay * 2) st
          { rest with
              events := Event.invokeOperation :: Event.toast ToastType.warning ::
                Event.sleep currentDelay :: rest.events }
        | 0 =>
          { ret := some (degradedWordPayload term)
            state := st
            events := [Event.invokeOperation, Event.toast ToastType.error] }
      else
        { ret := some data, state := st, events := [Event.invokeOperation] }
    | Except.error e =>
      if (parseGeminiError e).isQuotaExhaustedError then
        let stEvs := setGeminiQuotaExhaustedCooldown st
        { ret := none, state := stEvs.1, events := Event.invokeOperation :: stEvs.2 }
      else
        match fuel with
        | fuelLess + 1 =>
          let rest := wordDetailsLoop attempts term fuelLess (i + 1) (currentDelay * 2) st
          { rest with
              events := Event.invokeOperation :: Event.toast ToastType.warning ::
                Event.sleep currentDelay :: rest.events }
        | 0 =>
          { ret := none, state := st
            events := [Event.invokeOperation, Event.toast ToastType.error] }

/-- Default `retries = 2` of `generateWordDetailsWithGemini`. -/
def wordDetailsDefaultRetries : Nat := 2

/-- Default `initialDelay = 7000` of `generateWordDetailsWithGemini`. -/
def wordDetailsDefaultInitialDelay : Nat := 7000

/-- Shallow embedding of `generateWordDetailsWithGemini`
(src/index.tsx:357-457): the two fast-fail guards (no client, quota
exhausted), then the loading flag around the retry loop; `finally`
guarantees the trailing `setGlobalLoading(false)` on every path out of
the loop. -/
def generateWordDetailsWithGemini (term : String) (attempts : Nat → WordAttempt)
    (retries : Nat) (initialDelay : Nat) (st : GState) : CallResult WordPayload :=
  if !st.ai then
    { ret := none, state := st, events := [Event.toast ToastType.warning] }
  else if st.isCurrentlyGeminiQuotaExhausted then
    { ret := none, state := st, events := [Event.toast ToastType.warning] }
  else
    let r := wordDetailsLoop attempts term retries 0 initialDelay st
    { r with
        events := Event.setLoading true :: (r.events ++ [Event.setLoading false]) }

/-- One entry of `response.generatedImages`. -/
structure GeneratedImageEntry where
  image : Option String
  deriving Repr, DecidableEq

/-- The image response as far as the code inspects it:
`response.generatedImages` may be absent, and each entry has an optional
`image?.imageBytes` (flattened to an optional string here). -/
structure ImageResponse where
  generatedImages : Option (List GeneratedImageEntry)
  deriving Repr, DecidableEq

/-- The truthy check of src/index.tsx:494:
`response.generatedImages && response.generatedImages.length > 0 &&
response.generatedImages[0].image?.imageBytes` — yields the bytes when the
list is present and nonempty and the first entry carries a nonempty
`imageBytes` string. -/
def imageResponseBytes (r : ImageResponse) : Option String :=
  match r.generatedImages with
  | some (g :: _) =>
    match g.image with
    | some s => if s.isEmpty then none else some s
    | none => none
  | _ => none

/-- One attempt of the image operation: the awaited
`ai.models.generateImages` call either throws or yields a response. -/
abbrev ImageAttempt := Except GeminiErrorVal ImageResponse

/-- The `for (let i = 0; i <= retries; i++)` body of
`generateImageForWordWithGemini` (src/index.tsx:485-537).  A response with
bytes emits one success toast and returns the bytes; a response without
bytes is retried like a transient failure and yields `null` on the last
attempt.  As in `wordDetailsLoop`, `fuel = retries - i` represents the
`i < retries` test. -/
def imageLoop (attempts : Nat → ImageAttempt) :
    Nat → Nat → Nat → GState → CallResult String
  | fuel, i, currentDelay, st =>
    match attempts i with
    | Except.ok resp =>
      match imageResponseBytes resp with
      | some bytes =>
        { ret := some bytes, state := st
          events := [Event.invokeOperation, Event.toast ToastType.success] }
      | none =>
        match fuel with
        | fuelLess + 1 =>
          let rest := imageLoop attempts fuelLess (i + 1) (currentDelay * 2) st
          { rest with
              events := Event.invokeOperation :: Event.toast ToastType.warning ::
                Event.sleep currentDelay :: rest.events }
        | 0 =>
          { ret := none, state := st
            events := [Event.invokeOperation, Event.toast ToastType.error] }
    | Except.error e =>
      if (parseGeminiError e).isQuotaExhaustedError then
        let stEvs := setGeminiQuotaExhaustedCooldown st
        { ret := none, state := stEvs.1, events := Event.invokeOperation :: stEvs.2 }
      else
        match fuel with
        | fuelLess + 1 =>
          let rest := imageLoop attempts fuelLess (i + 1) (currentDelay * 2) st
          { rest with
              events := Event.invokeOperation :: Event.toast ToastType.warning ::
                Event.sleep currentDelay :: rest.events }
        | 0 =>
          { ret := none, state := st
            events := [Event.invokeOperation, Event.toast ToastType.error] }

/-- Default `retries = 1` of `generateImageForWordWithGemini`. -/
def imageDefaultRetries : Nat := 1

/-- Default `initialDelay = 8000` of `generateImageForWordWithGemini`. -/
def imageDefaultInitialDelay : Nat := 8000

/-- Shallow embedding of `generateImageForWordWithGemini`
(src/index.tsx:469-544). -/
def generateImageForWordWithGemini (attempts : Nat → ImageAttempt)
    (retries : Nat) (initialDelay : Nat) (st : GState) : CallResult String :=
  if !st.ai then
    { ret := none, state := st, events := [Event.toast ToastType.warning] }
  else if st.isCurrentlyGeminiQuotaExhausted then
    { ret := none, state := st, events := [Event.toast ToastType.warning] }
  else
    let r := imageLoop attempts retries 0 initialDelay st
    { r with
        events := Event.setLoading true :: (r.events ++ [Event.setLoading false]) }

/-- Number of invocations of the external operation in a trace. -/
def invokeCount (events : List Event) : Nat :=
  (events.filter (fun e =>
    match e with
    | Event.invokeOperation => true
    | _ => false)).length

/-- The toast levels of a trace, in order. -/
def toastLevels (events : List Event) : List ToastType :=
  events.filterMap (fun e =>
    match e with
    | Event.toast lvl => some lvl
    | _ => none)

/-- The sleep delays of a trace, in order. -/
def sleepDelays (events : List Event) : List Nat :=
  events.filterMap (fun e =>
    match e with
    | Event.sleep ms => some ms
    | _ => none)

/-- The loading-flag value after replaying a trace from `b`. -/
def loadingAfter (b : Bool) (events : List Event) : Bool :=
  events.foldl (fun acc e =>
    match e with
    | Event.setLoading v => v
    | _ => acc) b

/-! ## Sample states and errors used by counterexamples and witnesses -/

/-- A fresh state: client initialized, quota flag clear, no timer. -/
def sampleReadyState : GState :=
  { ai := true
    isCurrentlyGeminiQuotaExhausted := false
    quotaCooldownTimeoutId := none
    now := 0
    nextTimerId := 1
    pendingTimers := [] }

/-- A state currently in cooldown. -/
def sampleQuotaExhaustedState : GState :=
  { ai := true
    isCurrentlyGeminiQuotaExhausted := true
    quotaCooldownTimeoutId := some 1
    now := 5
    nextTimerId := 2
    pendingTimers := [(1, 5 + GEMINI_QUOTA_COOLDOWN_MS)] }

/-- A state whose AI client failed to initialize (no API key). -/
def sampleNoClientState : GState :=
  { sampleReadyState with ai := false }

/-- A flat-shape error (`{ message, status }`) whose `status` is the string
`"RESOURCE_EXHAUSTED"` and whose message carries no quota keyword. -/
def flatResourceExhaustedError : GeminiErrorVal :=
  { nestedError := none
    message := some "boom"
    status := some (Sum.inr "RESOURCE_EXHAUSTED")
    asString := "boom" }

/-- A nested-shape quota error: code 429, quota message, status string. -/
def sampleQuotaError : GeminiErrorVal :=
  { nestedError := some
      { message := some "Quota exceeded for requests"
        code := some 429
        status := some "RESOURCE_EXHAUSTED" }
    message := none
    status := none
    asString := "[object Object]" }

/-- A generic transient error: plain JS `Error` with no status. -/
def sampleGenericError : GeminiErrorVal :=
  { nestedError := none
    message := some "network glitch"
    status := none
    asString := "Error: network glitch" }

/-- A structurally incomplete word payload: the essential fields
(`partOfSpeech`, `meaning`, `exampleSentence`) are absent. -/
def sampleIncompleteWordPayload : WordPayload :=
  { term := some "apple"
    pronunciation := none
    partOfSpeech := none
    meaning := none
    exampleSentence := none
    exampleSentenceMeaning := none }

/-- An image response with an empty `generatedImages` list (no bytes). -/
def sampleEmptyImageResponse : ImageResponse :=
  { generatedImages := some [] }

/-! ## Helper lemmas -/

/-- After filtering out every pair with key `tid`, a `find?` for key `tid`
fails. -/
theorem find?_filter_ne_none (tid : Nat) (l : List (Nat × Nat)) :
    (l.filter (fun p => p.1 != tid)).find? (fun p => p.1 == tid) = none := by
  rw [List.find?_eq_none]
  intro x hx
  have hx2 := (List.mem_filter.mp hx).2
  simp only [bne_iff_ne, ne_eq] at hx2
  simp [hx2]

/-- `find?` with the constantly false predicate fails. -/
theorem find?_false {α : Type} (l : List α) : l.find? (fun _ => false) = none := by
  simp [List.find?_eq_none]

/-- `sleepDelays` ignores the empty trace. -/
@[simp] theorem sleepDelays_nil : sleepDelays [] = [] := rfl

/-- `sleepDelays` ignores toasts. -/
@[simp] theorem sleepDelays_cons_toast (lvl : ToastType) (l : List Event) :
    sleepDelays (Event.toast lvl :: l) = sleepDelays l := rfl

/-- `sleepDelays` ignores loading toggles. -/
@[simp] theorem sleepDelays_cons_setLoading (b : Bool) (l : List Event) :
    sleepDelays (Event.setLoading b :: l) = sleepDelays l := rfl

/-- `sleepDelays` ignores operation invocations. -/
@[simp] theorem sleepDelays_cons_invoke (l : List Event) :
    sleepDelays (Event.invokeOperation :: l) = sleepDelays l := rfl

/-- `sleepDelays` records sleeps. -/
@[simp] theorem sleepDelays_cons_sleep (ms : Nat) (l : List Event) :
    sleepDelays (Event.sleep ms :: l) = ms :: sleepDelays l := rfl

/-- `sleepDelays` distributes over `++`. -/
@[simp] theorem sleepDelays_append (l1 l2 : List Event) :
    sleepDelays (l1 ++ l2) = sleepDelays l1 ++ sleepDelays l2 := by
  simp [sleepDelays]

/-- `toastLevels` of the empty trace. -/
@[simp] theorem toastLevels_nil : toastLevels [] = [] := rfl

/-- `toastLevels` records toasts. -/
@[simp] theorem toastLevels_cons_toast (lvl : ToastType) (l : List Event) :
    toastLevels (Event.toast lvl :: l) = lvl :: toastLevels l := rfl

/-- `toastLevels` ignores loading toggles. -/
@[simp] theorem toastLevels_cons_setLoading (b : Bool) (l : List Event) :
    toastLevels (Event.setLoading b :: l) = toastLevels l := rfl

/-- `toastLevels` ignores operation invocations. -/
@[simp] theorem toastLevels_cons_invoke (l : List Event) :
    toastLevels (Event.invokeOperation :: l) = toastLevels l := rfl

/-- `toastLevels` ignores sleeps. -/
@[simp] theorem toastLevels_cons_sleep (ms : Nat) (l : List Event) :
    toastLevels (Event.sleep ms :: l) = toastLevels l := rfl

/-- `toastLevels` distributes over `++`. -/
@[simp] theorem toastLevels_append (l1 l2 : List Event) :
    toastLevels (l1 ++ l2) = toastLevels l1 ++ toastLevels l2 := by
  simp [toastLevels]

/-- `invokeCount` of the empty trace. -/
@[simp] theorem invokeCount_nil : invokeCount [] = 0 := rfl

/-- `invokeCount` counts invocations. -/
@[simp] theorem invokeCount_cons_invoke (l : List Event) :
    invokeCount (Event.invokeOperation :: l) = invokeCount l + 1 := by
  simp [invokeCount, List.filter]

/-- `invokeCount` ignores toasts. -/
@[simp] theorem invokeCount_cons_toast (lvl : ToastType) (l : List Event) :
    invokeCount (Event.toast lvl :: l) = invokeCount l := by
  simp [invokeCount, List.filter]

/-- `invokeCount` ignores loading toggles. -/
@[simp] theorem invokeCount_cons_setLoading (b : Bool) (l : List Event) :
    invokeCount (Event.setLoading b :: l) = invokeCount l := by
  simp [invokeCount, List.filter]

/-- `invokeCount` ignores sleeps. -/
@[simp] theorem invokeCount_cons_sleep (ms : Nat) (l : List Event) :
    invokeCount (Event.sleep ms :: l) = invokeCount l := by
  simp [invokeCount, List.filter]

/-- `invokeCount` distributes over `++`. -/
@[simp] theorem invokeCount_append (l1 l2 : List Event) :
    invokeCount (l1 ++ l2) = invokeCount l1 + invokeCount l2 := by
  simp [invokeCount]

/-- `loadingAfter` of the empty trace. -/
@[simp] theorem loadingAfter_nil (b : Bool) : loadingAfter b [] = b := rfl

/-- `loadingAfter` tracks loading toggles. -/
@[simp] theorem loadingAfter_cons_setLoading (b v : Bool) (l : List Event) :
    loadingAfter b (Event.setLoading v :: l) = loadingAfter v l := rfl

/-- `loadingAfter` ignores toasts. -/
@[simp] theorem loadingAfter_cons_toast (b : Bool) (lvl : ToastType) (l : List Event) :
    loadingAfter b (Event.toast lvl :: l) = loadingAfter b l := rfl

/-- `loadingAfter` ignores operation invocations. -/
@[simp] theorem loadingAfter_cons_invoke (b : Bool) (l : List Event) :
    loadingAfter b (Event.invokeOperation :: l) = loadingAfter b l := rfl

/-- `loadingAfter` ignores sleeps. -/
@[simp] theorem loadingAfter_cons_sleep (b : Bool) (ms : Nat) (l : List Event) :
    loadingAfter b (Event.sleep ms :: l) = loadingAfter b l := rfl

/-- `loadingAfter` composes over `++`. -/
@[simp] theorem loadingAfter_append (b : Bool) (l1 l2 : List Event) :
    loadingAfter b (l1 ++ l2) = loadingAfter (loadingAfter b l1) l2 := by
  simp [loadingAfter, List.foldl_append]

/-- The cooldown trigger emits no sleep events. -/
theorem sleepDelays_setCooldown (st : GState) :
    sleepDelays (setGeminiQuotaExhaustedCooldown st).2 = [] := by
  by_cases h : st.isCurrentlyGeminiQuotaExhausted <;>
    simp [setGeminiQuotaExhaustedCooldown, h]

/-- `getLast?` of a list ending in a given element. -/
theorem getLast?_cons_append_singleton {α : Type} (x y : α) (l : List α) :
    (x :: (l ++ [y])).getLast? = some y := by
  induction l generalizing x with
  | nil => rfl
  | cons a l ih => simpa using ih a

/-! ## C6: cooldown entry is idempotent -/

/-- C6: calling `setGeminiQuotaExhaustedCooldown` while the quota flag is
already set is a complete no-op (state unchanged, no events, timer
untouched), and consequently invoking it twice has exactly the same
effect as invoking it once. -/
theorem setGeminiQuotaExhaustedCooldown_idempotent (st : GState) :
    (st.isCurrentlyGeminiQuotaExhausted = true →
      setGeminiQuotaExhaustedCooldown st = (st, [])) ∧
    setGeminiQuotaExhaustedCooldown (setGeminiQuotaExhaustedCooldown st).1 =
      ((setGeminiQuotaExhaustedCooldown st).1, []) := by
  constructor
  · intro h
    simp [setGeminiQuotaExhaustedCooldown, h]
  · by_cases h : st.isCurrentlyGeminiQuotaExhausted
    · simp [setGeminiQuotaExhaustedCooldown, h]
    · simp [setGeminiQuotaExhaustedCooldown, h]

/-- Witness for C6 at a concrete cooldown state. -/
theorem setGeminiQuotaExhaustedCooldown_idempotent_witness :
    setGeminiQuotaExhaustedCooldown sampleQuotaExhaustedState =
      (sampleQuotaExhaustedState, []) :=
  (setGeminiQuotaExhaustedCooldown_idempotent sampleQuotaExhaustedState).1 rfl

/-! ## C7: the cooldown timer fires once, after the fixed duration -/

/-- C7: entering the cooldown from a clear state schedules exactly one
timer for `GEMINI_QUOTA_COOLDOWN_MS` after the entry instant; firing that
timer emits exactly one info toast, clears the exhausted flag, nulls the
timer handle, happens at exactly the scheduled instant, and cannot fire a
second time. -/
theorem quotaCooldown_timer_behaviour (st s1 : GState) (tid : Nat)
    (h : st.isCurrentlyGeminiQuotaExhausted = false)
    (hs1 : s1 = (setGeminiQuotaExhaustedCooldown st).1)
    (htid : tid = st.nextTimerId) :
    s1.quotaCooldownTimeoutId = some tid ∧
    s1.pendingTimers.find? (fun p => p.1 == tid) =
      some (tid, st.now + GEMINI_QUOTA_COOLDOWN_MS) ∧
    (fireTimer tid s1).2 = [Event.toast ToastType.info] ∧
    (fireTimer tid s1).1.isCurrentlyGeminiQuotaExhausted = false ∧
    (fireTimer tid s1).1.quotaCooldownTimeoutId = none ∧
    (fireTimer tid s1).1.now = st.now + GEMINI_QUOTA_COOLDOWN_MS ∧
    fireTimer tid (fireTimer tid s1).1 = ((fireTimer tid s1).1, []) := by
  subst hs1 htid
  refine ⟨?_, ?_, ?_, ?_, ?_, ?_, ?_⟩ <;>
    simp [setGeminiQuotaExhaustedCooldown, h, fireTimer, quotaCooldownCallback,
      List.find?_cons_of_pos, find?_filter_ne_none, find?_false]

/-- Witness for C7 at a concrete fresh state. -/
theorem quotaCooldown_timer_behaviour_witness :
    sampleReadyState.nextTimerId = 1 ∧
    ((setGeminiQuotaExhaustedCooldown sampleReadyState).1.quotaCooldownTimeoutId = some 1 ∧
      (setGeminiQuotaExhaustedCooldown sampleReadyState).1.pendingTimers.find?
          (fun p => p.1 == 1) =
        some (1, sampleReadyState.now + GEMINI_QUOTA_COOLDOWN_MS) ∧
      (fireTimer 1 (setGeminiQuotaExhaustedCooldown sampleReadyState).1).2 =
        [Event.toast ToastType.info] ∧
      (fireTimer 1 (setGeminiQuotaExhaustedCooldown sampleReadyState).1).1.isCurrentlyGeminiQuotaExhausted =
        false ∧
      (fireTimer 1 (setGeminiQuotaExhaustedCooldown sampleReadyState).1).1.quotaCooldownTimeoutId =
        none ∧
      (fireTimer 1 (setGeminiQuotaExhaustedCooldown sampleReadyState).1).1.now =
        sampleReadyState.now + GEMINI_QUOTA_COOLDOWN_MS ∧
      fireTimer 1 (fireTimer 1 (setGeminiQuotaExhaustedCooldown sampleReadyState).1).1 =
        ((fireTimer 1 (setGeminiQuotaExhaustedCooldown sampleReadyState).1).1, [])) :=
  ⟨rfl, quotaCooldown_timer_behaviour sampleReadyState _ 1 rfl rfl rfl⟩

/-! ## C10: missing API key means immediate warning and null -/

/-- C10: when the AI client is not initialized, both gateway calls return
`null` after exactly one warning toast, with no operation invocation, no
sleep, no loading-flag toggle, and the global state (hence the cooldown)
untouched. -/
theorem noClient_fastFail (term : String) (wAttempts : Nat → WordAttempt)
    (iAttempts : Nat → ImageAttempt) (r1 d1 r2 d2 : Nat) (st : GState)
    (h : st.ai = false) :
    generateWordDetailsWithGemini term wAttempts r1 d1 st =
      { ret := none, state := st, events := [Event.toast ToastType.warning] } ∧
    generateImageForWordWithGemini iAttempts r2 d2 st =
      { ret := none, state := st, events := [Event.toast ToastType.warning] } := by
  simp [generateWordDetailsWithGemini, generateImageForWordWithGemini, h]

/-- Witness for C10 at a concrete uninitialized state. -/
theorem noClient_fastFail_witness :
    generateWordDetailsWithGemini "apple" (fun _ => Except.error sampleGenericError)
        wordDetailsDefaultRetries wordDetailsDefaultInitialDelay sampleNoClientState =
      { ret := none, state := sampleNoClientState
        events := [Event.toast ToastType.warning] } ∧
    generateImageForWordWithGemini (fun _ => Except.error sampleGenericError)
        imageDefaultRetries imageDefaultInitialDelay sampleNoClientState =
      { ret := none, state := sampleNoClientState
        events := [Event.toast ToastType.warning] } :=
  noClient_fastFail "apple" _ _ _ _ _ _ sampleNoClientState rfl

/-! ## C1: fast-fail while the quota flag is set -/

/-- C1: while `isCurrentlyGeminiQuotaExhausted` is true, both gateway
calls return `null` immediately with exactly one warning toast, never
invoke the external operation, and leave the state unchanged. -/
theorem quotaExhausted_fastFail (term : String) (wAttempts : Nat → WordAttempt)
    (iAttempts : Nat → ImageAttempt) (r1 d1 r2 d2 : Nat) (st : GState)
    (h : st.isCurrentlyGeminiQuotaExhausted = true) :
    generateWordDetailsWithGemini term wAttempts r1 d1 st =
      { ret := none, state := st, events := [Event.toast ToastType.warning] } ∧
    generateImageForWordWithGemini iAttempts r2 d2 st =
      { ret := none, state := st, events := [Event.toast ToastType.warning] } := by
  by_cases hai : st.ai <;>
    simp [generateWordDetailsWithGemini, generateImageForWordWithGemini, h, hai]

/-- Witness for C1 at a concrete exhausted state. -/
theorem quotaExhausted_fastFail_witness :
    generateWordDetailsWithGemini "apple" (fun _ => Except.error sampleGenericError)
        wordDetailsDefaultRetries wordDetailsDefaultInitialDelay sampleQuotaExhaustedState =
      { ret := none, state := sampleQuotaExhaustedState
        events := [Event.toast ToastType.warning] } ∧
    generateImageForWordWithGemini (fun _ => Except.error sampleGenericError)
        imageDefaultRetries imageDefaultInitialDelay sampleQuotaExhaustedState =
      { ret := none, state := sampleQuotaExhaustedState
        events := [Event.toast ToastType.warning] } :=
  quotaExhausted_fastFail "apple" _ _ _ _ _ _ sampleQuotaExhaustedState rfl

/-! ## C4: RESOURCE_EXHAUSTED status classification

The claim as stated fails for the flat error shape: `parseGeminiError`
extracts `error.status` into a numeric status code only (a string there
is ignored), so a flat error whose `status` is `"RESOURCE_EXHAUSTED"` is
not classified quota-exhausted unless its message matches the quota
keywords.  In the nested shape the status string is extracted (and
upper-cased) and does force the quota classification even without a
numeric code. -/

/-- C4 counterexample: a flat-shape error carrying the status string
`"RESOURCE_EXHAUSTED"` (and a message without quota keywords) is not
classified quota-exhausted, contrary to the claim. -/
theorem parseGeminiError_flat_resource_exhausted_not_quota :
    (parseGeminiError flatResourceExhaustedError).isQuotaExhaustedError = false := by
  decide

/-- C4 (amended): for every nested-shape error (string message present,
status string present) whose status upper-cases to
`"RESOURCE_EXHAUSTED"`, classification yields quota-exhausted, even when
no numeric status code is present. -/
theorem parseGeminiError_nested_resource_exhausted_quota
    (m s : String) (c : Option Int) (msg : Option String)
    (stat : Option (Int ⊕ String)) (a : String)
    (hs : upperStr s = "RESOURCE_EXHAUSTED") :
    (parseGeminiError
      { nestedError := some { message := some m, code := c, status := some s }
        message := msg
        status := stat
        asString := a }).isQuotaExhaustedError = true := by
  simp [parseGeminiError, hs]

/-- Witness for the amended C4 at a concrete nested error with no numeric
code. -/
theorem parseGeminiError_nested_resource_exhausted_quota_witness :
    upperStr "resource_exhausted" = "RESOURCE_EXHAUSTED" ∧
    (parseGeminiError
      { nestedError := some
          { message := some "boom", code := none, status := some "resource_exhausted" }
        message := none
        status := none
        asString := "x" }).isQuotaExhaustedError = true :=
  ⟨by decide,
    parseGeminiError_nested_resource_exhausted_quota "boom" "resource_exhausted"
      none none none "x" (by decide)⟩

/-! ## C2: a quota error on the first attempt stops the call at once -/

/-- C2: when the first attempt throws a quota-classified error, each
gateway call invokes the operation exactly once (the whole trace is
loading-on, one invocation, the cooldown's error toast, loading-off; in
particular no sleeps and no retries, whatever the retry budget), returns
`null`, and the cooldown is entered immediately (flag set, timer
started). -/
theorem quotaError_firstAttempt
    (term : String) (wAttempts : Nat → WordAttempt) (iAttempts : Nat → ImageAttempt)
    (e1 e2 : GeminiErrorVal) (r1 d1 r2 d2 : Nat) (st : GState)
    (hai : st.ai = true) (hq : st.isCurrentlyGeminiQuotaExhausted = false)
    (hw0 : wAttempts 0 = Except.error e1) (hi0 : iAttempts 0 = Except.error e2)
    (hc1 : (parseGeminiError e1).isQuotaExhaustedError = true)
    (hc2 : (parseGeminiError e2).isQuotaExhaustedError = true) :
    generateWordDetailsWithGemini term wAttempts r1 d1 st =
      { ret := none
        state := (setGeminiQuotaExhaustedCooldown st).1
        events := [Event.setLoading true, Event.invokeOperation,
          Event.toast ToastType.error, Event.setLoading false] } ∧
    generateImageForWordWithGemini iAttempts r2 d2 st =
      { ret := none
        state := (setGeminiQuotaExhaustedCooldown st).1
        events := [Event.setLoading true, Event.invokeOperation,
          Event.toast ToastType.error, Event.setLoading false] } ∧
    (setGeminiQuotaExhaustedCooldown st).1.isCurrentlyGeminiQuotaExhausted = true ∧
    (setGeminiQuotaExhaustedCooldown st).1.quotaCooldownTimeoutId =
      some st.nextTimerId := by
  refine ⟨?_, ?_, ?_, ?_⟩
  · cases r1 <;>
      simp [generateWordDetailsWithGemini, wordDetailsLoop, hai, hq, hw0, hc1,
        setGeminiQuotaExhaustedCooldown]
  · cases r2 <;>
      simp [generateImageForWordWithGemini, imageLoop, hai, hq, hi0, hc2,
        setGeminiQuotaExhaustedCooldown]
  · simp [setGeminiQuotaExhaustedCooldown, hq]
  · simp [setGeminiQuotaExhaustedCooldown, hq]

/-- Witness for C2 at a concrete quota error and fresh state. -/
theorem quotaError_firstAttempt_witness :
    generateWordDetailsWithGemini "apple" (fun _ => Except.error sampleQuotaError)
        2 7000 sampleReadyState =
      { ret := none
        state := (setGeminiQuotaExhaustedCooldown sampleReadyState).1
        events := [Event.setLoading true, Event.invokeOperation,
          Event.toast ToastType.error, Event.setLoading false] } ∧
    generateImageForWordWithGemini (fun _ => Except.error sampleQuotaError)
        1 8000 sampleReadyState =
      { ret := none
        state := (setGeminiQuotaExhaustedCooldown sampleReadyState).1
        events := [Event.setLoading true, Event.invokeOperation,
          Event.toast ToastType.error, Event.setLoading false] } ∧
    (setGeminiQuotaExhaustedCooldown sampleReadyState).1.isCurrentlyGeminiQuotaExhausted =
      true ∧
    (setGeminiQuotaExhaustedCooldown sampleReadyState).1.quotaCooldownTimeoutId =
      some sampleReadyState.nextTimerId :=
  quotaError_firstAttempt "apple" (fun _ => Except.error sampleQuotaError)
    (fun _ => Except.error sampleQuotaError) sampleQuotaError sampleQuotaError
    2 7000 1 8000 sampleReadyState rfl rfl rfl rfl (by decide) (by decide)

/-! ## C3: generic errors burn the whole retry budget -/

/-- C3: with `retries = 2` and a generic (non-quota, non-429) error on
every attempt, `generateWordDetailsWithGemini` invokes the operation
exactly 3 times, emits exactly 2 warning toasts followed by 1 error
toast, returns `null`, and leaves the global state unchanged. -/
theorem genericError_retryExhaustion
    (term : String) (wAttempts : Nat → WordAttempt) (e0 e1 e2 : GeminiErrorVal)
    (d : Nat) (st : GState)
    (hai : st.ai = true) (hq : st.isCurrentlyGeminiQuotaExhausted = false)
    (h0 : wAttempts 0 = Except.error e0) (h1 : wAttempts 1 = Except.error e1)
    (h2 : wAttempts 2 = Except.error e2)
    (hq0 : (parseGeminiError e0).isQuotaExhaustedError = false)
    (hq1 : (parseGeminiError e1).isQuotaExhaustedError = false)
    (hq2 : (parseGeminiError e2).isQuotaExhaustedError = false)
    (_hr0 : (parseGeminiError e0).isRateLimitErrorForRetry = false)
    (_hr1 : (parseGeminiError e1).isRateLimitErrorForRetry = false)
    (_hr2 : (parseGeminiError e2).isRateLimitErrorForRetry = false) :
    (generateWordDetailsWithGemini term wAttempts 2 d st).ret = none ∧
    invokeCount (generateWordDetailsWithGemini term wAttempts 2 d st).events = 3 ∧
    toastLevels (generateWordDetailsWithGemini term wAttempts 2 d st).events =
      [ToastType.warning, ToastType.warning, ToastType.error] ∧
    (generateWordDetailsWithGemini term wAttempts 2 d st).state = st := by
  have L : wordDetailsLoop wAttempts term 2 0 d st =
      { ret := none
        state := st
        events := [Event.invokeOperation, Event.toast ToastType.warning,
          Event.sleep d, Event.invokeOperation, Event.toast ToastType.warning,
          Event.sleep (d * 2), Event.invokeOperation,
          Event.toast ToastType.error] } := by
    simp [wordDetailsLoop, h0, h1, h2, hq0, hq1, hq2]
  simp [generateWordDetailsWithGemini, hai, hq, L]

/-- Witness for C3 with a concrete generic error on all three attempts. -/
theorem genericError_retryExhaustion_witness :
    (generateWordDetailsWithGemini "apple" (fun _ => Except.error sampleGenericError)
        2 7000 sampleReadyState).ret = none ∧
    invokeCount (generateWordDetailsWithGemini "apple"
        (fun _ => Except.error sampleGenericError) 2 7000 sampleReadyState).events = 3 ∧
    toastLevels (generateWordDetailsWithGemini "apple"
        (fun _ => Except.error sampleGenericError) 2 7000 sampleReadyState).events =
      [ToastType.warning, ToastType.warning, ToastType.error] ∧
    (generateWordDetailsWithGemini "apple" (fun _ => Except.error sampleGenericError)
        2 7000 sampleReadyState).state = sampleReadyState :=
  genericError_retryExhaustion "apple" (fun _ => Except.error sampleGenericError)
    sampleGenericError sampleGenericError sampleGenericError 7000 sampleReadyState
    rfl rfl rfl rfl rfl (by decide) (by decide) (by decide)
    (by decide) (by decide) (by decide)

/-! ## C8: the loading flag brackets every executing call -/

/-- C8: for every call that begins executing (client present, quota flag
clear) and every attempt script, the trace starts with loading-on, ends
with loading-off, and replaying it leaves the loading flag false. -/
theorem loadingFlag_balanced
    (term : String) (wAttempts : Nat → WordAttempt) (iAttempts : Nat → ImageAttempt)
    (r1 d1 r2 d2 : Nat) (st : GState) (b1 b2 : Bool)
    (hai : st.ai = true) (hq : st.isCurrentlyGeminiQuotaExhausted = false) :
    (generateWordDetailsWithGemini term wAttempts r1 d1 st).events.head? =
      some (Event.setLoading true) ∧
    (generateWordDetailsWithGemini term wAttempts r1 d1 st).events.getLast? =
      some (Event.setLoading false) ∧
    loadingAfter b1 (generateWordDetailsWithGemini term wAttempts r1 d1 st).events =
      false ∧
    (generateImageForWordWithGemini iAttempts r2 d2 st).events.head? =
      some (Event.setLoading true) ∧
    (generateImageForWordWithGemini iAttempts r2 d2 st).events.getLast? =
      some (Event.setLoading false) ∧
    loadingAfter b2 (generateImageForWordWithGemini iAttempts r2 d2 st).events =
      false := by
  refine ⟨?_, ?_, ?_, ?_, ?_, ?_⟩ <;>
    simp [generateWordDetailsWithGemini, generateImageForWordWithGemini, hai, hq,
      getLast?_cons_append_singleton]

/-- Witness for C8 at concrete scripts and a fresh state. -/
theorem loadingFlag_balanced_witness :
    (generateWordDetailsWithGemini "apple" (fun _ => Except.error sampleGenericError)
        2 7000 sampleReadyState).events.head? = some (Event.setLoading true) ∧
    (generateWordDetailsWithGemini "apple" (fun _ => Except.error sampleGenericError)
        2 7000 sampleReadyState).events.getLast? = some (Event.setLoading false) ∧
    loadingAfter false (generateWordDetailsWithGemini "apple"
        (fun _ => Except.error sampleGenericError) 2 7000 sampleReadyState).events =
      false ∧
    (generateImageForWordWithGemini (fun _ => Except.ok sampleEmptyImageResponse)
        1 8000 sampleReadyState).events.head? = some (Event.setLoading true) ∧
    (generateImageForWordWithGemini (fun _ => Except.ok sampleEmptyImageResponse)
        1 8000 sampleReadyState).events.getLast? = some (Event.setLoading false) ∧
    loadingAfter false (generateImageForWordWithGemini
        (fun _ => Except.ok sampleEmptyImageResponse) 1 8000 sampleReadyState).events =
      false :=
  loadingFlag_balanced "apple" (fun _ => Except.error sampleGenericError)
    (fun _ => Except.ok sampleEmptyImageResponse) 2 7000 1 8000 sampleReadyState
    false false rfl rfl

/-! ## C5: delays across retries follow initialDelay * 2 ^ i -/

/-- The sleep delays the retry loop emits, starting from `currentDelay = c`,
are `c * 2 ^ j` for the `j`-th recorded sleep, for any attempt script. -/
theorem wordDetailsLoop_sleepDelays_backoff (wAttempts : Nat → WordAttempt)
    (term : String) :
    ∀ (fuel i c : Nat) (st : GState) (j : Nat),
      j < (sleepDelays (wordDetailsLoop wAttempts term fuel i c st).events).length →
      (sleepDelays (wordDetailsLoop wAttempts term fuel i c st).events).getD j 0 =
        c * 2 ^ j := by
  intro fuel
  induction fuel with
  | zero =>
    intro i c st j hj
    exfalso
    have hz : sleepDelays (wordDetailsLoop wAttempts term 0 i c st).events = [] := by
      cases hA : wAttempts i with
      | ok data =>
        by_cases hinc : wordPayloadIncomplete data <;>
          simp [wordDetailsLoop, hA, hinc]
      | error e =>
        by_cases hqe : (parseGeminiError e).isQuotaExhaustedError <;>
          simp [wordDetailsLoop, hA, hqe, sleepDelays_setCooldown]
    rw [hz] at hj
    simp at hj
  | succ fuelLess ih =>
    intro i c st j hj
    cases hA : wAttempts i with
    | ok data =>
      by_cases hinc : wordPayloadIncomplete data
      · have hL : sleepDelays
            (wordDetailsLoop wAttempts term (fuelLess + 1) i c st).events =
            c :: sleepDelays
              (wordDetailsLoop wAttempts term fuelLess (i + 1) (c * 2) st).events := by
          simp [wordDetailsLoop, hA, hinc]
        rw [hL] at hj ⊢
        cases j with
        | zero => simp
        | succ j2 =>
          have hj2 : j2 <
              (sleepDelays (wordDetailsLoop wAttempts term fuelLess (i + 1)
                (c * 2) st).events).length := by
            simpa using hj
          have hrec := ih (i + 1) (c * 2) st j2 hj2
          simp only [List.getD_cons_succ, hrec, pow_succ]
          ring
      · have hz : sleepDelays
            (wordDetailsLoop wAttempts term (fuelLess + 1) i c st).events = [] := by
          simp [wordDetailsLoop, hA, hinc]
        rw [hz] at hj
        simp at hj
    | error e =>
      by_cases hqe : (parseGeminiError e).isQuotaExhaustedError
      · have hz : sleepDelays
            (wordDetailsLoop wAttempts term (fuelLess + 1) i c st).events = [] := by
          simp [wordDetailsLoop, hA, hqe, sleepDelays_setCooldown]
        rw [hz] at hj
        simp at hj
      · have hL : sleepDelays
            (wordDetailsLoop wAttempts term (fuelLess + 1) i c st).events =
            c :: sleepDelays
              (wordDetailsLoop wAttempts term fuelLess (i + 1) (c * 2) st).events := by
          simp [wordDetailsLoop, hA, hqe]
        rw [hL] at hj ⊢
        cases j with
        | zero => simp
        | succ j2 =>
          have hj2 : j2 <
              (sleepDelays (wordDetailsLoop wAttempts term fuelLess (i + 1)
                (c * 2) st).events).length := by
            simpa using hj
          have hrec := ih (i + 1) (c * 2) st j2 hj2
          simp only [List.getD_cons_succ, hrec, pow_succ]
          ring

/-- C5: for every executing call of `generateWordDetailsWithGemini` and
every attempt script, the `j`-th recorded sleep delay is exactly
`initialDelay * 2 ^ j` — with `initialDelay = 1000` that is
1000, 2000, 4000, ... across successive retries. -/
theorem backoff_delays (term : String) (wAttempts : Nat → WordAttempt)
    (retries d : Nat) (st : GState) (j : Nat)
    (hai : st.ai = true) (hq : st.isCurrentlyGeminiQuotaExhausted = false)
    (hj : j < (sleepDelays
      (generateWordDetailsWithGemini term wAttempts retries d st).events).length) :
    (sleepDelays
      (generateWordDetailsWithGemini term wAttempts retries d st).events).getD j 0 =
      d * 2 ^ j := by
  have hev : (generateWordDetailsWithGemini term wAttempts retries d st).events =
      Event.setLoading true ::
        ((wordDetailsLoop wAttempts term retries 0 d st).events ++
          [Event.setLoading false]) := by
    simp [generateWordDetailsWithGemini, hai, hq]
  rw [hev] at hj ⊢
  simp only [sleepDelays_cons_setLoading, sleepDelays_append, sleepDelays_nil,
    List.append_nil] at hj ⊢
  exact wordDetailsLoop_sleepDelays_backoff wAttempts term retries 0 d st j hj

/-- Witness for C5: with `initialDelay = 1000` and generic errors on every
attempt, the second recorded delay is 2000. -/
theorem backoff_delays_witness :
    (sleepDelays (generateWordDetailsWithGemini "apple"
      (fun _ => Except.error sampleGenericError) 2 1000 sampleReadyState).events).getD
        1 0 = 1000 * 2 ^ 1 :=
  backoff_delays "apple" (fun _ => Except.error sampleGenericError) 2 1000
    sampleReadyState 1 rfl rfl (by decide)

/-! ## C9: incomplete payloads are retried; degraded vs null fallback -/

/-- When every attempt parses but is incomplete, the word-details loop
uses its whole budget and falls back to the degraded `{ term }` payload,
leaving the state untouched. -/
theorem wordDetailsLoop_allIncomplete (wAttempts : Nat → WordAttempt)
    (term : String) (p : Nat → WordPayload)
    (hall : ∀ k, wAttempts k = Except.ok (p k))
    (hinc : ∀ k, wordPayloadIncomplete (p k) = true) :
    ∀ (fuel i c : Nat) (st : GState),
      (wordDetailsLoop wAttempts term fuel i c st).ret =
        some (degradedWordPayload term) ∧
      invokeCount (wordDetailsLoop wAttempts term fuel i c st).events = fuel + 1 ∧
      (wordDetailsLoop wAttempts term fuel i c st).state = st := by
  intro fuel
  induction fuel with
  | zero =>
    intro i c st
    simp [wordDetailsLoop, hall i, hinc i]
  | succ fuelLess ih =>
    intro i c st
    have hrec := ih (i + 1) (c * 2) st
    refine ⟨?_, ?_, ?_⟩ <;>
      simp [wordDetailsLoop, hall i, hinc i, hrec.1, hrec.2.1, hrec.2.2]

/-- When every attempt yields a response without image bytes, the image
loop uses its whole budget and returns `null`, leaving the state
untouched. -/
theorem imageLoop_allMissing (iAttempts : Nat → ImageAttempt)
    (resp : Nat → ImageResponse)
    (hall : ∀ k, iAttempts k = Except.ok (resp k))
    (hmiss : ∀ k, imageResponseBytes (resp k) = none) :
    ∀ (fuel i c : Nat) (st : GState),
      (imageLoop iAttempts fuel i c st).ret = none ∧
      invokeCount (imageLoop iAttempts fuel i c st).events = fuel + 1 ∧
      (imageLoop iAttempts fuel i c st).state = st := by
  intro fuel
  induction fuel with
  | zero =>
    intro i c st
    simp [imageLoop, hall i, hmiss i]
  | succ fuelLess ih =>
    intro i c st
    have hrec := ih (i + 1) (c * 2) st
    refine ⟨?_, ?_, ?_⟩ <;>
      simp [imageLoop, hall i, hmiss i, hrec.1, hrec.2.1, hrec.2.2]

/-- C9: when every attempt returns a structurally incomplete success
payload, both calls retry through the whole budget (`retries + 1`
invocations); on final exhaustion the word-details call returns the
degraded `{ term }` payload while the image call returns `null`. -/
theorem incompletePayload_policy
    (term : String) (wAttempts : Nat → WordAttempt) (iAttempts : Nat → ImageAttempt)
    (p : Nat → WordPayload) (resp : Nat → ImageResponse)
    (r1 d1 r2 d2 : Nat) (st : GState)
    (hai : st.ai = true) (hq : st.isCurrentlyGeminiQuotaExhausted = false)
    (hwall : ∀ k, wAttempts k = Except.ok (p k))
    (hwinc : ∀ k, wordPayloadIncomplete (p k) = true)
    (hiall : ∀ k, iAttempts k = Except.ok (resp k))
    (himiss : ∀ k, imageResponseBytes (resp k) = none) :
    (generateWordDetailsWithGemini term wAttempts r1 d1 st).ret =
      some (degradedWordPayload term) ∧
    invokeCount (generateWordDetailsWithGemini term wAttempts r1 d1 st).events =
      r1 + 1 ∧
    (generateImageForWordWithGemini iAttempts r2 d2 st).ret = none ∧
    invokeCount (generateImageForWordWithGemini iAttempts r2 d2 st).events =
      r2 + 1 := by
  have hw := wordDetailsLoop_allIncomplete wAttempts term p hwall hwinc r1 0 d1 st
  have hi := imageLoop_allMissing iAttempts resp hiall himiss r2 0 d2 st
  refine ⟨?_, ?_, ?_, ?_⟩ <;>
    simp [generateWordDetailsWithGemini, generateImageForWordWithGemini, hai, hq,
      hw.1, hw.2.1, hi.1, hi.2.1]

/-- Witness for C9 with concrete incomplete payloads and responses. -/
theorem incompletePayload_policy_witness :
    (generateWordDetailsWithGemini "apple"
      (fun _ => Except.ok sampleIncompleteWordPayload) 2 7000 sampleReadyState).ret =
      some (degradedWordPayload "apple") ∧
    invokeCount (generateWordDetailsWithGemini "apple"
      (fun _ => Except.ok sampleIncompleteWordPayload) 2 7000
        sampleReadyState).events = 2 + 1 ∧
    (generateImageForWordWithGemini (fun _ => Except.ok sampleEmptyImageResponse)
      1 8000 sampleReadyState).ret = none ∧
    invokeCount (generateImageForWordWithGemini
      (fun _ => Except.ok sampleEmptyImageResponse) 1 8000
        sampleReadyState).events = 1 + 1 :=
  incompletePayload_policy "apple" (fun _ => Except.ok sampleIncompleteWordPayload)
    (fun _ => Except.ok sampleEmptyImageResponse)
    (fun _ => sampleIncompleteWordPayload) (fun _ => sampleEmptyImageResponse)
    2 7000 1 8000 sampleReadyState rfl rfl (fun _ => rfl) (fun _ => rfl)
    (fun _ => rfl) (fun _ => rfl)

end Gateway
